import Mathlib

/-! Password-reset token service (`main.go`)

A shallow embedding of the two HTTP handlers of `main.go`,
`forgotPasswordHandler` and `resetPasswordHandler`, together with the
process-wide token map `resetTokens` they share.

Conventions of the embedding

* The global `resetTokens` is threaded explicitly: a handler takes the map
  before the request and returns the map after it.
* The `http.ResponseWriter` is the record of what the handler wrote: the
  status passed to `WriteHeader` (if any) and the body.
* Calls that leave the program (`json.Decoder.Decode`, `uuid.New().String()`,
  `time.Now()`, and the SMTP dialogue performed by `sendResetPasswordEmail`)
  are read from an environment `Env`; the calls made to the mail sender are
  recorded in the outcome.
* An instant is a number of nanoseconds on the clock `time.Now()` reads.
-/

namespace Testmail

/-! ## Time -/

/-- Go `time.Duration`: a number of nanoseconds. -/
abbrev Duration := Int

/-- Go `time.Minute`. -/
def Minute : Duration := 60 * 1000000000

/-- Go `time.Time`, as the reading in nanoseconds of the clock `time.Now()`
reads. Readings are unbounded integers: the instants the program handles are
readings of `time.Now()` and such a reading plus thirty minutes, far from the
limits of the 64-bit fields of `time.Time`. -/
structure Time where
  ns : Int
  deriving DecidableEq, Repr

/-- Go `t.Add(d)`. -/
def Time.Add (t : Time) (d : Duration) : Time := ⟨t.ns + d⟩

/-- Go `t.After(u)`: `t` is strictly later than `u`. -/
def Time.After (t u : Time) : Bool := decide (u.ns < t.ns)

/-! ## Requests and responses -/

/-- Go `ForgotPasswordRequest`. -/
structure ForgotPasswordRequest where
  Email : String
  ResetURL : String
  deriving DecidableEq, Repr

/-- Go `ForgotPasswordResponse`. -/
structure ForgotPasswordResponse where
  Success : Bool
  Message : String
  ResetToken : String := ""
  deriving DecidableEq, Repr

/-- A JSON scalar, as far as the responses need one. -/
inductive JVal where
  | bool (b : Bool)
  | str (s : String)
  deriving DecidableEq, Repr

/-- The members `json.Encoder.Encode` writes for a `ForgotPasswordResponse`:
`reset_token` carries `omitempty`, so an empty `ResetToken` is left out. -/
def ForgotPasswordResponse.encode (r : ForgotPasswordResponse) : List (String × JVal) :=
  [("success", JVal.bool r.Success), ("message", JVal.str r.Message)] ++
    (if r.ResetToken = "" then [] else [("reset_token", JVal.str r.ResetToken)])

/-- Go `url.Values`: each key has a list of values. -/
abbrev Values := String → List String

/-- Go `Values.Get`: the first value of the key, or the empty string. -/
def Values.Get (v : Values) (key : String) : String :=
  match v key with
  | [] => ""
  | x :: _ => x

/-- The parts of `*http.Request` the handlers read. -/
structure Request where
  Method : String
  Body : String
  Query : Values

/-- What a handler wrote as the body of its response. -/
inductive Body where
  | empty
  | text (s : String)
  | forgot (r : ForgotPasswordResponse)
  | validate (valid : Bool) (message : String)
  deriving DecidableEq, Repr

/-- The record of a handler's use of its `http.ResponseWriter`: the code given
to `WriteHeader` (`none` when the handler never set one) and the body. -/
structure ResponseWriter where
  status : Option Nat
  body : Body
  deriving DecidableEq, Repr

def StatusOK : Nat := 200
def StatusBadRequest : Nat := 400
def StatusMethodNotAllowed : Nat := 405
def StatusInternalServerError : Nat := 500

/-! ## The token map -/

/-- Go `map[string]time.Time`: the type of `resetTokens`. -/
abbrev Store := String → Option Time

/-- Go `make(map[string]time.Time)`. -/
def Store.empty : Store := fun _ => none

/-- Go `m[k] = v`. -/
def Store.set (m : Store) (k : String) (v : Time) : Store :=
  fun k' => if k' = k then some v else m k'

/-! ## The environment of a request -/

/-- One call of `sendResetPasswordEmail(toEmail, token, resetURL)`. -/
structure MailCall where
  toEmail : String
  token : String
  resetURL : String
  deriving DecidableEq, Repr

/-- What a request reads from outside the program.

* `Decode body` is the result of `json.NewDecoder(r.Body).Decode(&req)` on a
  zero `req`: `none` when it returns an error.
* `newUUID` is the string `uuid.New().String()` returns.
* `now` is the reading of `time.Now()`.
* `sendResetPasswordEmail` is the error (`none` for `nil`) that
  `sendResetPasswordEmail` returns, which is the one of `d.DialAndSend(m)`. -/
structure Env where
  Decode : String → Option ForgotPasswordRequest
  newUUID : String
  now : Time
  sendResetPasswordEmail : String → String → String → Option String

/-- A handler's effect: the token map after the request, the response written,
the calls made to the mail sender and the lines logged. -/
structure Outcome where
  resetTokens : Store
  w : ResponseWriter
  sent : List MailCall := []
  log : List String := []

/-! ## The handlers -/

/-- Go `forgotPasswordHandler`. -/
def forgotPasswordHandler (env : Env) (resetTokens : Store) (r : Request) : Outcome :=
  if r.Method = "OPTIONS" then
    { resetTokens := resetTokens, w := ⟨some StatusOK, Body.empty⟩ }
  else if r.Method ≠ "POST" then
    { resetTokens := resetTokens,
      w := ⟨some StatusMethodNotAllowed, Body.text "只支持POST请求\n"⟩ }
  else
    match env.Decode r.Body with
    | none =>
      { resetTokens := resetTokens,
        w := ⟨some StatusBadRequest,
              Body.forgot { Success := false, Message := "无效的请求数据" }⟩ }
    | some req =>
      if req.Email = "" then
        { resetTokens := resetTokens,
          w := ⟨some StatusBadRequest,
                Body.forgot { Success := false, Message := "邮箱不能为空" }⟩ }
      else if req.ResetURL = "" then
        { resetTokens := resetTokens,
          w := ⟨some StatusBadRequest,
                Body.forgot { Success := false, Message := "重置URL不能为空" }⟩ }
      else
        let resetToken := env.newUUID
        let resetTokens := resetTokens.set resetToken (env.now.Add (30 * Minute))
        let resetLink := req.ResetURL ++ "?token=" ++ resetToken
        let log := ["发送重置邮件到: " ++ req.Email, "重置链接: " ++ resetLink]
        let sent := [MailCall.mk req.Email resetToken req.ResetURL]
        match env.sendResetPasswordEmail req.Email resetToken req.ResetURL with
        | some err =>
          { resetTokens := resetTokens,
            w := ⟨some StatusInternalServerError,
                  Body.forgot { Success := false, Message := "邮件发送失败，请稍后重试" }⟩,
            sent := sent,
            log := log ++ ["发送邮件失败: " ++ err] }
        | none =>
          { resetTokens := resetTokens,
            w := ⟨some StatusOK,
                  Body.forgot { Success := true, Message := "重置链接已发送到您的邮箱",
                                ResetToken := resetToken }⟩,
            sent := sent,
            log := log }

/-- Go `resetPasswordHandler`; `now` is the reading of `time.Now()`. -/
def resetPasswordHandler (now : Time) (resetTokens : Store) (r : Request) : Outcome :=
  if r.Method = "GET" then
    let token := r.Query.Get "token"
    if token = "" then
      { resetTokens := resetTokens, w := ⟨none, Body.validate false "无效的token"⟩ }
    else
      match resetTokens token with
      | none =>
        { resetTokens := resetTokens,
          w := ⟨none, Body.validate false "token不存在或已过期"⟩ }
      | some expiry =>
        if now.After expiry then
          { resetTokens := resetTokens, w := ⟨none, Body.validate false "token已过期"⟩ }
        else
          { resetTokens := resetTokens, w := ⟨none, Body.validate true "token验证成功"⟩ }
  else
    { resetTokens := resetTokens, w := ⟨none, Body.empty⟩ }

/-! ## Sequences of requests -/

/-- One request reaching the server, with what it reads from outside. -/
inductive Event where
  | forgot (env : Env) (r : Request)
  | validate (now : Time) (r : Request)

/-- The token map after one request. -/
def Event.step (resetTokens : Store) : Event → Store
  | Event.forgot env r => (forgotPasswordHandler env resetTokens r).resetTokens
  | Event.validate now r => (resetPasswordHandler now resetTokens r).resetTokens

/-- The token map after a sequence of requests, served one after the other. -/
def run (resetTokens : Store) : List Event → Store
  | [] => resetTokens
  | e :: es => run (e.step resetTokens) es

/-- Every identifier `uuid.New().String()` hands to a forgot-password request of
the sequence is not yet a key of the token map when the request is served. -/
def freshIds (resetTokens : Store) : List Event → Bool
  | [] => true
  | Event.forgot env r :: es =>
    (resetTokens env.newUUID).isNone &&
      freshIds ((Event.forgot env r).step resetTokens) es
  | Event.validate now r :: es =>
    freshIds ((Event.validate now r).step resetTokens) es

/-- The same validation request served at each of the given instants in turn:
the token map at the end and the responses in order. -/
def validateAll (resetTokens : Store) (r : Request) : List Time → Store × List ResponseWriter
  | [] => (resetTokens, [])
  | t :: ts =>
    let o := resetPasswordHandler t resetTokens r
    let rest := validateAll o.resetTokens r ts
    (rest.1, o.w :: rest.2)

/-! ## Concrete inputs -/

/-- A forgot-password body and the request it decodes to. -/
def sampleBody : String :=
  "\x7b\"email\":\"a@b.com\",\"reset_url\":\"https://x/reset\"\x7d"

/-- A decoder that knows `sampleBody` and one body with an empty email. -/
def sampleDecode (body : String) : Option ForgotPasswordRequest :=
  if body = sampleBody then some ⟨"a@b.com", "https://x/reset"⟩
  else if body = "\x7b\"email\":\"\",\"reset_url\":\"https://x/reset\"\x7d" then
    some ⟨"", "https://x/reset"⟩
  else none

def sampleId : String := "123e4567-e89b-42d3-a456-426614174000"

/-- An environment whose mail transport works. -/
def envOk : Env :=
  { Decode := sampleDecode, newUUID := sampleId, now := ⟨1000⟩,
    sendResetPasswordEmail := fun _ _ _ => none }

/-- An environment whose mail transport fails. -/
def envFail : Env :=
  { Decode := sampleDecode, newUUID := sampleId, now := ⟨1000⟩,
    sendResetPasswordEmail := fun _ _ _ => some "dial tcp: i/o timeout" }

/-- The request `POST /api/forgot-password` with `sampleBody`. -/
def postSample : Request :=
  { Method := "POST", Body := sampleBody, Query := fun _ => [] }

/-- The request `GET /api/validate-reset-token?token=<token>`. -/
def getToken (token : String) : Request :=
  { Method := "GET", Body := "", Query := fun k => if k = "token" then [token] else [] }

/-- The request `GET /api/validate-reset-token` with no query. -/
def getNoToken : Request :=
  { Method := "GET", Body := "", Query := fun _ => [] }

/-- A token map with one entry that expires at instant 500. -/
def oneToken : Store := Store.empty.set "abc" ⟨500⟩

end Testmail

namespace Testmail

/-! ## Helper lemmas -/

theorem Store.set_same (m : Store) (k : String) (v : Time) : m.set k v k = some v := by
  simp [Store.set]

theorem Store.set_other (m : Store) (k k' : String) (v : Time) (h : k' ≠ k) :
    m.set k v k' = m k' := by
  simp [Store.set, h]

/-- The validation handler returns the token map it was given. -/
theorem resetPasswordHandler_resetTokens (now : Time) (s : Store) (r : Request) :
    (resetPasswordHandler now s r).resetTokens = s := by
  unfold resetPasswordHandler
  split
  · dsimp only
    split
    · rfl
    · split
      · rfl
      · split <;> rfl
  · rfl

/-- The token map an accepted forgot-password request leaves. -/
theorem forgotPasswordHandler_accepted_resetTokens (env : Env) (s : Store) (r : Request)
    (req : ForgotPasswordRequest) (hm : r.Method = "POST")
    (hd : env.Decode r.Body = some req) (he : req.Email ≠ "") (hu : req.ResetURL ≠ "") :
    (forgotPasswordHandler env s r).resetTokens =
      s.set env.newUUID (env.now.Add (30 * Minute)) := by
  unfold forgotPasswordHandler
  simp only [hm, hd, he, hu]
  simp only [String.reduceEq, if_false, ne_eq, not_true_eq_false]
  split <;> rfl

/-- The token map after a forgot-password request is the one before it, or the
one before it with the generated identifier set to thirty minutes from now. -/
theorem forgotPasswordHandler_resetTokens_cases (env : Env) (s : Store) (r : Request) :
    (forgotPasswordHandler env s r).resetTokens = s ∨
      (forgotPasswordHandler env s r).resetTokens =
        s.set env.newUUID (env.now.Add (30 * Minute)) := by
  unfold forgotPasswordHandler
  split
  · exact Or.inl rfl
  · split
    · exact Or.inl rfl
    · split
      · exact Or.inl rfl
      · split
        · exact Or.inl rfl
        · split
          · exact Or.inl rfl
          · dsimp only
            split <;> exact Or.inr rfl

/-- What the validation handler answers to a GET with a non-empty token. -/
theorem resetPasswordHandler_get (now : Time) (s : Store) (r : Request)
    (hm : r.Method = "GET") (ht : r.Query.Get "token" ≠ "") :
    (resetPasswordHandler now s r).w =
      match s (r.Query.Get "token") with
      | none => ⟨none, Body.validate false "token不存在或已过期"⟩
      | some expiry =>
        if expiry.ns < now.ns then ⟨none, Body.validate false "token已过期"⟩
        else ⟨none, Body.validate true "token验证成功"⟩ := by
  unfold resetPasswordHandler
  simp only [hm, if_true, ht, if_false]
  split
  · rfl
  · simp only [Time.After, decide_eq_true_eq]
    split <;> rfl

/-- A forgot-password request keeps every entry of the token map when the
identifier it generates is not yet a key. -/
theorem forgotPasswordHandler_keeps_entries (env : Env) (s : Store) (r : Request)
    (hfresh : s env.newUUID = none) (k : String) (e : Time) (hk : s k = some e) :
    (forgotPasswordHandler env s r).resetTokens k = some e := by
  rcases forgotPasswordHandler_resetTokens_cases env s r with h | h
  · rw [h, hk]
  · have hne : k ≠ env.newUUID := by
      intro hEq
      rw [hEq, hfresh] at hk
      exact Option.noConfusion hk
    rw [h, Store.set_other _ _ _ _ hne, hk]

/-- A forgot-password request never removes a key of the token map. -/
theorem forgotPasswordHandler_keeps_keys (env : Env) (s : Store) (r : Request)
    (k : String) (hk : s k ≠ none) :
    (forgotPasswordHandler env s r).resetTokens k ≠ none := by
  rcases forgotPasswordHandler_resetTokens_cases env s r with h | h
  · rw [h]
    exact hk
  · rw [h]
    by_cases hEq : k = env.newUUID
    · rw [hEq, Store.set_same]
      exact Option.some_ne_none _
    · rw [Store.set_other _ _ _ _ hEq]
      exact hk

/-- A sequence of requests with fresh identifiers keeps every entry of the
token map. -/
theorem run_keeps_entries (es : List Event) :
    ∀ s : Store, freshIds s es = true →
      ∀ (k : String) (e : Time), s k = some e → run s es k = some e := by
  induction es with
  | nil =>
    intro s _ k e hk
    exact hk
  | cons ev es ih =>
    intro s hf k e hk
    cases ev with
    | forgot env r =>
      simp only [freshIds, Bool.and_eq_true, Option.isNone_iff_eq_none] at hf
      simp only [run]
      exact ih _ hf.2 k e
        (forgotPasswordHandler_keeps_entries env s r hf.1 k e hk)
    | validate now r =>
      simp only [freshIds] at hf
      simp only [run]
      refine ih _ hf k e ?_
      simp only [Event.step, resetPasswordHandler_resetTokens]
      exact hk

/-- Serving the same validation request at several instants leaves the token
map as it was. -/
theorem validateAll_resetTokens (r : Request) (times : List Time) :
    ∀ s : Store, (validateAll s r times).1 = s := by
  induction times with
  | nil =>
    intro s
    rfl
  | cons t ts ih =>
    intro s
    simp only [validateAll, ih, resetPasswordHandler_resetTokens]

/-! ## Validation of a token -/

/-- C1: a GET to `resetPasswordHandler` with a non-empty token answers by a
three-way case. A token that is not a key of the map gives valid=false with
"token不存在或已过期"; a key whose stored expiry is strictly before now gives
valid=false with "token已过期"; any other key gives valid=true with
"token验证成功". -/
theorem C1_validate_three_way (s : Store) (now : Time) (r : Request)
    (hm : r.Method = "GET") (ht : r.Query.Get "token" ≠ "") :
    (s (r.Query.Get "token") = none →
        (resetPasswordHandler now s r).w.body = Body.validate false "token不存在或已过期") ∧
    (∀ expiry, s (r.Query.Get "token") = some expiry → expiry.ns < now.ns →
        (resetPasswordHandler now s r).w.body = Body.validate false "token已过期") ∧
    (∀ expiry, s (r.Query.Get "token") = some expiry → ¬ expiry.ns < now.ns →
        (resetPasswordHandler now s r).w.body = Body.validate true "token验证成功") := by
  have h := resetPasswordHandler_get now s r hm ht
  refine ⟨?_, ?_, ?_⟩
  · intro hs
    rw [h, hs]
  · intro expiry hs hlt
    rw [h, hs]
    simp only [hlt, if_true]
  · intro expiry hs hlt
    rw [h, hs]
    simp only [hlt, if_false]

/-- C1 at concrete inputs: an unknown token, the token of `oneToken` after its
expiry, and the same token at its expiry. -/
theorem C1_validate_three_way_witness :
    (resetPasswordHandler ⟨600⟩ oneToken (getToken "zzz")).w.body =
        Body.validate false "token不存在或已过期" ∧
    (resetPasswordHandler ⟨600⟩ oneToken (getToken "abc")).w.body =
        Body.validate false "token已过期" ∧
    (resetPasswordHandler ⟨500⟩ oneToken (getToken "abc")).w.body =
        Body.validate true "token验证成功" :=
  ⟨(C1_validate_three_way oneToken ⟨600⟩ (getToken "zzz") (by decide) (by decide)).1
      (by decide),
   (C1_validate_three_way oneToken ⟨600⟩ (getToken "abc") (by decide) (by decide)).2.1
      ⟨500⟩ (by decide) (by decide),
   (C1_validate_three_way oneToken ⟨500⟩ (getToken "abc") (by decide) (by decide)).2.2
      ⟨500⟩ (by decide) (by decide)⟩

/-- C10: a GET to `resetPasswordHandler` whose `token` parameter is missing, or
whose first value is empty, answers valid=false with "无效的token" whatever the
token map holds (so also when the empty string is one of its keys), and the
answer is the same for every token map. -/
theorem C10_validate_missing_token (s : Store) (now : Time) (r : Request)
    (hm : r.Method = "GET")
    (ht : r.Query "token" = [] ∨ ∃ rest, r.Query "token" = "" :: rest) :
    (resetPasswordHandler now s r).w.body = Body.validate false "无效的token" ∧
    ∀ s' : Store, (resetPasswordHandler now s' r).w = (resetPasswordHandler now s r).w := by
  have hg : r.Query.Get "token" = "" := by
    unfold Values.Get
    rcases ht with h | ⟨rest, h⟩ <;> rw [h]
  have key : ∀ s' : Store,
      (resetPasswordHandler now s' r).w = ⟨none, Body.validate false "无效的token"⟩ := by
    intro s'
    unfold resetPasswordHandler
    simp only [hm, if_true, hg]
  refine ⟨?_, ?_⟩
  · rw [key s]
  · intro s'
    rw [key s', key s]

/-- C10 at a token map that has the empty string as a key: a GET with no query
and a GET with `token=` both get "无效的token". -/
theorem C10_validate_missing_token_witness :
    (Store.empty.set "" ⟨5000⟩) "" = some ⟨5000⟩ ∧
    (resetPasswordHandler ⟨0⟩ (Store.empty.set "" ⟨5000⟩) getNoToken).w.body =
        Body.validate false "无效的token" ∧
    (resetPasswordHandler ⟨0⟩ (Store.empty.set "" ⟨5000⟩) (getToken "")).w.body =
        Body.validate false "无效的token" :=
  ⟨by decide,
   (C10_validate_missing_token (Store.empty.set "" ⟨5000⟩) ⟨0⟩ getNoToken (by decide)
      (Or.inl (by decide))).1,
   (C10_validate_missing_token (Store.empty.set "" ⟨5000⟩) ⟨0⟩ (getToken "") (by decide)
      (Or.inr ⟨[], by decide⟩)).1⟩

/-! ## Issuance followed by validation -/

/-- C2: after an accepted forgot-password request served at `env.now` that
generated a (non-empty) identifier, a GET validating that identifier against
the resulting token map at any instant before `env.now` + 30 minutes answers
valid=true, whatever the mail sender returned. -/
theorem C2_issued_token_valid (env : Env) (s : Store) (r : Request)
    (req : ForgotPasswordRequest) (v : Request) (t : Time)
    (hm : r.Method = "POST") (hd : env.Decode r.Body = some req)
    (he : req.Email ≠ "") (hu : req.ResetURL ≠ "") (hid : env.newUUID ≠ "")
    (hv : v.Method = "GET") (hvt : v.Query.Get "token" = env.newUUID)
    (h0 : env.now.ns ≤ t.ns) (ht : t.ns < env.now.ns + 30 * Minute) :
    (resetPasswordHandler t (forgotPasswordHandler env s r).resetTokens v).w =
      ⟨none, Body.validate true "token验证成功"⟩ := by
  have _ := h0
  rw [resetPasswordHandler_get t _ v hv (by rw [hvt]; exact hid),
    forgotPasswordHandler_accepted_resetTokens env s r req hm hd he hu, hvt,
    Store.set_same]
  have hn : ¬ (env.now.Add (30 * Minute)).ns < t.ns := by
    simp only [Time.Add]
    omega
  simp only [hn, if_false]

/-- C2 at concrete inputs: the token issued at instant 1000 while the mail
transport fails validates one nanosecond before 1000 + 30 minutes. -/
theorem C2_issued_token_valid_witness :
    (resetPasswordHandler ⟨1000 + 30 * Minute - 1⟩
        (forgotPasswordHandler envFail Store.empty postSample).resetTokens
        (getToken sampleId)).w = ⟨none, Body.validate true "token验证成功"⟩ :=
  C2_issued_token_valid envFail Store.empty postSample ⟨"a@b.com", "https://x/reset"⟩
    (getToken sampleId) ⟨1000 + 30 * Minute - 1⟩ (by decide) (by decide) (by decide)
    (by decide) (by decide) (by decide) (by decide) (by decide) (by decide)

/-- C3, as the code has it: after an accepted forgot-password request served at
`env.now` that generated a (non-empty) identifier, a GET validating that
identifier against the resulting token map answers valid=false with
"token已过期" at every instant strictly after `env.now` + 30 minutes, and
valid=true at the instant `env.now` + 30 minutes itself. -/
theorem C3_issued_token_expired_strictly_after (env : Env) (s : Store) (r : Request)
    (req : ForgotPasswordRequest) (v : Request) (t : Time)
    (hm : r.Method = "POST") (hd : env.Decode r.Body = some req)
    (he : req.Email ≠ "") (hu : req.ResetURL ≠ "") (hid : env.newUUID ≠ "")
    (hv : v.Method = "GET") (hvt : v.Query.Get "token" = env.newUUID) :
    (env.now.ns + 30 * Minute < t.ns →
      (resetPasswordHandler t (forgotPasswordHandler env s r).resetTokens v).w =
        ⟨none, Body.validate false "token已过期"⟩) ∧
    (t.ns = env.now.ns + 30 * Minute →
      (resetPasswordHandler t (forgotPasswordHandler env s r).resetTokens v).w =
        ⟨none, Body.validate true "token验证成功"⟩) := by
  rw [resetPasswordHandler_get t _ v hv (by rw [hvt]; exact hid),
    forgotPasswordHandler_accepted_resetTokens env s r req hm hd he hu, hvt,
    Store.set_same]
  refine ⟨?_, ?_⟩
  · intro ht
    have hn : (env.now.Add (30 * Minute)).ns < t.ns := by
      simp only [Time.Add]
      omega
    simp only [hn, if_true]
  · intro ht
    have hn : ¬ (env.now.Add (30 * Minute)).ns < t.ns := by
      simp only [Time.Add]
      omega
    simp only [hn, if_false]

/-- C3 (amended) at concrete inputs: the token issued at instant 1000 is
expired one nanosecond after 1000 + 30 minutes. -/
theorem C3_issued_token_expired_strictly_after_witness :
    (resetPasswordHandler ⟨1000 + 30 * Minute + 1⟩
        (forgotPasswordHandler envOk Store.empty postSample).resetTokens
        (getToken sampleId)).w = ⟨none, Body.validate false "token已过期"⟩ :=
  (C3_issued_token_expired_strictly_after envOk Store.empty postSample
    ⟨"a@b.com", "https://x/reset"⟩ (getToken sampleId) ⟨1000 + 30 * Minute + 1⟩
    (by decide) (by decide) (by decide) (by decide) (by decide) (by decide)
    (by decide)).1 (by decide)

/-- C3 as stated fails: the token issued by an accepted request (status 200)
at instant 1000 is validated at the instant 1000 + 30 minutes exactly, and the
answer is valid=true with "token验证成功", not valid=false with "token已过期". -/
theorem C3_counterexample_at_expiry :
    (forgotPasswordHandler envOk Store.empty postSample).w.status = some 200 ∧
    envOk.now.ns + 30 * Minute ≤ (Time.mk (1000 + 30 * Minute)).ns ∧
    (resetPasswordHandler ⟨1000 + 30 * Minute⟩
        (forgotPasswordHandler envOk Store.empty postSample).resetTokens
        (getToken sampleId)).w.body = Body.validate true "token验证成功" ∧
    (resetPasswordHandler ⟨1000 + 30 * Minute⟩
        (forgotPasswordHandler envOk Store.empty postSample).resetTokens
        (getToken sampleId)).w.body ≠ Body.validate false "token已过期" := by
  refine ⟨by decide, by decide, by decide, by decide⟩

/-! ## The forgot-password handler -/

/-- C4: an accepted forgot-password request (POST, decodable body, non-empty
email and reset_url) whose mail send fails is answered with status 500, a body
with success=false and no `reset_token` member, and the generated identifier is
a key of the resulting token map with expiry `env.now` + 30 minutes. -/
theorem C4_mail_failure_keeps_token (env : Env) (s : Store) (r : Request)
    (req : ForgotPasswordRequest) (err : String)
    (hm : r.Method = "POST") (hd : env.Decode r.Body = some req)
    (he : req.Email ≠ "") (hu : req.ResetURL ≠ "")
    (hs : env.sendResetPasswordEmail req.Email env.newUUID req.ResetURL = some err) :
    ∃ resp : ForgotPasswordResponse,
      (forgotPasswordHandler env s r).w = ⟨some 500, Body.forgot resp⟩ ∧
      resp.Success = false ∧
      resp.Message = "邮件发送失败，请稍后重试" ∧
      (∀ x, ("reset_token", x) ∉ resp.encode) ∧
      (forgotPasswordHandler env s r).resetTokens env.newUUID =
        some ⟨env.now.ns + 30 * Minute⟩ := by
  refine ⟨{ Success := false, Message := "邮件发送失败，请稍后重试" }, ?_, rfl, rfl, ?_, ?_⟩
  · unfold forgotPasswordHandler
    simp only [hm, hd, he, hu, hs]
    simp only [String.reduceEq, if_false, ne_eq, not_true_eq_false]
    rfl
  · intro x
    simp [ForgotPasswordResponse.encode]
  · rw [forgotPasswordHandler_accepted_resetTokens env s r req hm hd he hu, Store.set_same]
    rfl

/-- C4 at concrete inputs: `postSample` served at instant 1000 with a failing
mail transport. -/
theorem C4_mail_failure_keeps_token_witness :
    ∃ resp : ForgotPasswordResponse,
      (forgotPasswordHandler envFail Store.empty postSample).w =
        ⟨some 500, Body.forgot resp⟩ ∧
      resp.Success = false ∧
      resp.Message = "邮件发送失败，请稍后重试" ∧
      (∀ x, ("reset_token", x) ∉ resp.encode) ∧
      (forgotPasswordHandler envFail Store.empty postSample).resetTokens envFail.newUUID =
        some ⟨envFail.now.ns + 30 * Minute⟩ :=
  C4_mail_failure_keeps_token envFail Store.empty postSample ⟨"a@b.com", "https://x/reset"⟩
    "dial tcp: i/o timeout" (by decide) (by decide) (by decide) (by decide) (by decide)

/-- C5: an accepted forgot-password request whose mail send succeeds is
answered with status 200 and success=true and `ResetToken` the generated
identifier (written as the `reset_token` member whenever the identifier is a
non-empty string); the mail sender was called once, with the request's email,
that identifier and the request's reset_url; and that identifier is a key of
the resulting token map with expiry `env.now` + 30 minutes. -/
theorem C5_mail_success_response (env : Env) (s : Store) (r : Request)
    (req : ForgotPasswordRequest)
    (hm : r.Method = "POST") (hd : env.Decode r.Body = some req)
    (he : req.Email ≠ "") (hu : req.ResetURL ≠ "")
    (hs : env.sendResetPasswordEmail req.Email env.newUUID req.ResetURL = none) :
    ∃ resp : ForgotPasswordResponse,
      (forgotPasswordHandler env s r).w = ⟨some 200, Body.forgot resp⟩ ∧
      resp.Success = true ∧
      resp.ResetToken = env.newUUID ∧
      (env.newUUID ≠ "" → ("reset_token", JVal.str env.newUUID) ∈ resp.encode) ∧
      (forgotPasswordHandler env s r).sent = [⟨req.Email, env.newUUID, req.ResetURL⟩] ∧
      (forgotPasswordHandler env s r).resetTokens env.newUUID =
        some ⟨env.now.ns + 30 * Minute⟩ := by
  refine ⟨{ Success := true, Message := "重置链接已发送到您的邮箱", ResetToken := env.newUUID },
    ?_, rfl, rfl, ?_, ?_, ?_⟩
  · unfold forgotPasswordHandler
    simp only [hm, hd, he, hu, hs]
    simp only [String.reduceEq, if_false, ne_eq, not_true_eq_false]
    rfl
  · intro hid
    simp [ForgotPasswordResponse.encode, hid]
  · unfold forgotPasswordHandler
    simp only [hm, hd, he, hu, hs]
    simp only [String.reduceEq, if_false, ne_eq, not_true_eq_false]
  · rw [forgotPasswordHandler_accepted_resetTokens env s r req hm hd he hu, Store.set_same]
    rfl

/-- C5 at concrete inputs: `postSample` served at instant 1000 with a working
mail transport. -/
theorem C5_mail_success_response_witness :
    ∃ resp : ForgotPasswordResponse,
      (forgotPasswordHandler envOk Store.empty postSample).w =
        ⟨some 200, Body.forgot resp⟩ ∧
      resp.Success = true ∧
      resp.ResetToken = envOk.newUUID ∧
      (envOk.newUUID ≠ "" → ("reset_token", JVal.str envOk.newUUID) ∈ resp.encode) ∧
      (forgotPasswordHandler envOk Store.empty postSample).sent =
        [⟨"a@b.com", envOk.newUUID, "https://x/reset"⟩] ∧
      (forgotPasswordHandler envOk Store.empty postSample).resetTokens envOk.newUUID =
        some ⟨envOk.now.ns + 30 * Minute⟩ :=
  C5_mail_success_response envOk Store.empty postSample ⟨"a@b.com", "https://x/reset"⟩
    (by decide) (by decide) (by decide) (by decide) (by decide)

/-- C6: `forgotPasswordHandler` rejects by the first failing check in the order
method, body, email, reset_url. OPTIONS gives 200 with no body; a method other
than POST and OPTIONS gives 405; a POST whose body does not decode gives 400
"无效的请求数据"; a decodable POST with empty email gives 400 "邮箱不能为空",
whatever its reset_url; a decodable POST with non-empty email and empty
reset_url gives 400 "重置URL不能为空"; every 400 response has success=false. -/
theorem C6_rejection_order (env : Env) (s : Store) (r : Request) :
    (r.Method = "OPTIONS" →
      (forgotPasswordHandler env s r).w = ⟨some 200, Body.empty⟩) ∧
    (r.Method ≠ "OPTIONS" → r.Method ≠ "POST" →
      (forgotPasswordHandler env s r).w.status = some 405) ∧
    (r.Method = "POST" → env.Decode r.Body = none →
      (forgotPasswordHandler env s r).w =
        ⟨some 400, Body.forgot ⟨false, "无效的请求数据", ""⟩⟩) ∧
    (∀ req, r.Method = "POST" → env.Decode r.Body = some req → req.Email = "" →
      (forgotPasswordHandler env s r).w =
        ⟨some 400, Body.forgot ⟨false, "邮箱不能为空", ""⟩⟩) ∧
    (∀ req, r.Method = "POST" → env.Decode r.Body = some req → req.Email ≠ "" →
      req.ResetURL = "" →
      (forgotPasswordHandler env s r).w =
        ⟨some 400, Body.forgot ⟨false, "重置URL不能为空", ""⟩⟩) ∧
    ((forgotPasswordHandler env s r).w.status = some 400 →
      ∃ resp : ForgotPasswordResponse,
        (forgotPasswordHandler env s r).w.body = Body.forgot resp ∧ resp.Success = false ∧
          ("success", JVal.bool false) ∈ resp.encode) := by
  refine ⟨?_, ?_, ?_, ?_, ?_, ?_⟩
  · intro hm
    unfold forgotPasswordHandler
    simp only [hm, if_true]
    rfl
  · intro ho hp
    unfold forgotPasswordHandler
    simp only [ho, hp, if_false, ne_eq, not_false_eq_true, if_true]
    rfl
  · intro hm hd
    unfold forgotPasswordHandler
    simp only [hm, hd]
    simp only [String.reduceEq, if_false, ne_eq, not_true_eq_false]
    rfl
  · intro req hm hd he
    unfold forgotPasswordHandler
    simp only [hm, hd, he]
    simp only [String.reduceEq, if_false, ne_eq, not_true_eq_false, if_true]
    rfl
  · intro req hm hd he hu
    unfold forgotPasswordHandler
    simp only [hm, hd, he, hu]
    simp only [String.reduceEq, if_false, ne_eq, not_true_eq_false, if_true]
    rfl
  · unfold forgotPasswordHandler
    split
    · intro h
      simp [StatusOK, StatusMethodNotAllowed, StatusInternalServerError] at h
    · split
      · intro h
        simp [StatusOK, StatusMethodNotAllowed, StatusInternalServerError] at h
      · split
        · intro _
          exact ⟨_, rfl, rfl, by simp [ForgotPasswordResponse.encode]⟩
        · split
          · intro _
            exact ⟨_, rfl, rfl, by simp [ForgotPasswordResponse.encode]⟩
          · split
            · intro _
              exact ⟨_, rfl, rfl, by simp [ForgotPasswordResponse.encode]⟩
            · dsimp only
              split
              · intro h
                simp [StatusOK, StatusMethodNotAllowed, StatusInternalServerError] at h
              · intro h
                simp [StatusOK, StatusMethodNotAllowed, StatusInternalServerError] at h

/-- C6 at concrete inputs: a POST whose body has an empty email and a non-empty
reset_url is answered 400 "邮箱不能为空", and a PUT is answered 405. -/
theorem C6_rejection_order_witness :
    (forgotPasswordHandler envOk Store.empty
        ⟨"POST", "\x7b\"email\":\"\",\"reset_url\":\"https://x/reset\"\x7d", fun _ => []⟩).w =
      ⟨some 400, Body.forgot ⟨false, "邮箱不能为空", ""⟩⟩ ∧
    (forgotPasswordHandler envOk Store.empty ⟨"PUT", "", fun _ => []⟩).w.status = some 405 :=
  ⟨(C6_rejection_order envOk Store.empty
      ⟨"POST", "\x7b\"email\":\"\",\"reset_url\":\"https://x/reset\"\x7d", fun _ => []⟩).2.2.2.1
      ⟨"", "https://x/reset"⟩ (by decide) (by decide) (by decide),
   (C6_rejection_order envOk Store.empty ⟨"PUT", "", fun _ => []⟩).2.1
      (by decide) (by decide)⟩

/-- C7: a forgot-password request that is an OPTIONS preflight, or that is
answered with status 400 or 405, leaves the token map as it was and makes no
call to the mail sender. -/
theorem C7_rejected_request_frame (env : Env) (s : Store) (r : Request)
    (h : r.Method = "OPTIONS" ∨ (forgotPasswordHandler env s r).w.status = some 400 ∨
      (forgotPasswordHandler env s r).w.status = some 405) :
    (forgotPasswordHandler env s r).resetTokens = s ∧
      (forgotPasswordHandler env s r).sent = [] := by
  revert h
  unfold forgotPasswordHandler
  split
  · intro _
    exact ⟨rfl, rfl⟩
  · split
    · intro _
      exact ⟨rfl, rfl⟩
    · split
      · intro _
        exact ⟨rfl, rfl⟩
      · split
        · intro _
          exact ⟨rfl, rfl⟩
        · split
          · intro _
            exact ⟨rfl, rfl⟩
          · rename_i hopt _ _ _ _ _ _
            dsimp only
            split
            · intro h
              rcases h with h | h | h
              · exact absurd h hopt
              · simp [StatusOK, StatusMethodNotAllowed, StatusInternalServerError] at h
              · simp [StatusOK, StatusMethodNotAllowed, StatusInternalServerError] at h
            · intro h
              rcases h with h | h | h
              · exact absurd h hopt
              · simp [StatusOK, StatusMethodNotAllowed, StatusInternalServerError] at h
              · simp [StatusOK, StatusMethodNotAllowed, StatusInternalServerError] at h

/-- C7 at concrete inputs: a PUT (answered 405) against `oneToken`. -/
theorem C7_rejected_request_frame_witness :
    (forgotPasswordHandler envOk oneToken ⟨"PUT", "", fun _ => []⟩).w.status = some 405 ∧
    (forgotPasswordHandler envOk oneToken ⟨"PUT", "", fun _ => []⟩).resetTokens = oneToken ∧
    (forgotPasswordHandler envOk oneToken ⟨"PUT", "", fun _ => []⟩).sent = [] :=
  ⟨by decide,
   C7_rejected_request_frame envOk oneToken ⟨"PUT", "", fun _ => []⟩
     (Or.inr (Or.inr (by decide)))⟩

/-! ## Validation has no effect; expiry is final -/

/-- C8: `resetPasswordHandler` returns the token map unchanged for every
method, token and instant; so the same GET for an unexpired token, served at any
number of instants before the token's expiry, is answered valid=true every
time, and the token map at the end is the one at the start. -/
theorem C8_validation_idempotent (s : Store) (r : Request) (expiry : Time)
    (times : List Time)
    (hm : r.Method = "GET") (ht : r.Query.Get "token" ≠ "")
    (hs : s (r.Query.Get "token") = some expiry)
    (hb : ∀ t ∈ times, t.ns < expiry.ns) :
    (∀ (now : Time) (s' : Store) (r' : Request),
        (resetPasswordHandler now s' r').resetTokens = s') ∧
    (validateAll s r times).1 = s ∧
    (validateAll s r times).2 =
      times.map (fun _ => ⟨none, Body.validate true "token验证成功"⟩) := by
  refine ⟨resetPasswordHandler_resetTokens, validateAll_resetTokens r times s, ?_⟩
  induction times with
  | nil => rfl
  | cons t ts ih =>
    have hts : ∀ u ∈ ts, u.ns < expiry.ns := fun u hu => hb u (List.mem_cons_of_mem _ hu)
    have hlt : t.ns < expiry.ns := hb t (List.mem_cons_self _ _)
    have hn : ¬ expiry.ns < t.ns := by omega
    simp only [validateAll, resetPasswordHandler_resetTokens, List.map_cons, ih hts,
      resetPasswordHandler_get t s r hm ht, hs, hn, if_false]

/-- C8 at concrete inputs: the token of `oneToken` (expiry 500) validated at
instants 100, 100 and 499. -/
theorem C8_validation_idempotent_witness :
    (validateAll oneToken (getToken "abc") [⟨100⟩, ⟨100⟩, ⟨499⟩]).2 =
      [⟨none, Body.validate true "token验证成功"⟩,
       ⟨none, Body.validate true "token验证成功"⟩,
       ⟨none, Body.validate true "token验证成功"⟩] :=
  (C8_validation_idempotent oneToken (getToken "abc") ⟨500⟩ [⟨100⟩, ⟨100⟩, ⟨499⟩]
    (by decide) (by decide) (by decide) (by decide)).2.2

/-- C9: expired is final. If a GET validating a token at instant `t` is
answered "token已过期", then after any sequence of forgot-password and
validate-token requests in which each generated identifier is not yet a key of
the token map, a GET validating the same token at any instant `t'` with
`t ≤ t'` is still answered valid=false with "token已过期". Along such a
sequence every entry of the token map keeps its expiry, and a forgot-password
request never removes a key. -/
theorem C9_expired_is_terminal (s : Store) (r r' : Request) (t t' : Time)
    (es : List Event)
    (hexp : (resetPasswordHandler t s r).w.body = Body.validate false "token已过期")
    (hfresh : freshIds s es = true)
    (hm' : r'.Method = "GET") (htok : r'.Query.Get "token" = r.Query.Get "token")
    (htt : t.ns ≤ t'.ns) :
    (resetPasswordHandler t' (run s es) r').w.body = Body.validate false "token已过期" ∧
    (∀ (k : String) (e : Time), s k = some e → run s es k = some e) ∧
    (∀ (env : Env) (s0 : Store) (r0 : Request) (k : String), s0 k ≠ none →
        (forgotPasswordHandler env s0 r0).resetTokens k ≠ none) := by
  refine ⟨?_, run_keeps_entries es s hfresh,
    fun env s0 r0 k hk => forgotPasswordHandler_keeps_keys env s0 r0 k hk⟩
  -- what the first answer says about the token map
  have hfacts : r.Query.Get "token" ≠ "" ∧
      ∃ e, s (r.Query.Get "token") = some e ∧ e.ns < t.ns := by
    revert hexp
    unfold resetPasswordHandler
    split
    · dsimp only
      split
      · intro h
        simp at h
      · rename_i hne
        split
        · intro h
          simp at h
        · rename_i e he
          split
          · rename_i hafter
            intro _
            refine ⟨hne, e, he, ?_⟩
            simpa [Time.After] using hafter
          · intro h
            simp at h
    · intro h
      simp at h
  obtain ⟨hne, e, he, hlt⟩ := hfacts
  have hrun : run s es (r'.Query.Get "token") = some e := by
    rw [htok]
    exact run_keeps_entries es s hfresh _ e he
  have hlt' : e.ns < t'.ns := by omega
  rw [resetPasswordHandler_get t' (run s es) r' hm' (by rw [htok]; exact hne), hrun]
  simp only [hlt', if_true]

/-- C9 at concrete inputs: the token of `oneToken` is expired at instant 600;
after a forgot-password request that issues `sampleId` and a validation of
`sampleId`, it is still expired at instant 700. -/
theorem C9_expired_is_terminal_witness :
    (resetPasswordHandler ⟨700⟩
        (run oneToken [Event.forgot envOk postSample,
          Event.validate ⟨650⟩ (getToken sampleId)])
        (getToken "abc")).w.body = Body.validate false "token已过期" :=
  (C9_expired_is_terminal oneToken (getToken "abc") (getToken "abc") ⟨600⟩ ⟨700⟩
    [Event.forgot envOk postSample, Event.validate ⟨650⟩ (getToken sampleId)]
    (by decide) (by decide) (by decide) (by decide) (by decide)).1

end Testmail
